import Mathlib

/-!
Verification of the comfyui-gateway core against its source.

Shallow embedding conventions:
* Python floats that hold epoch timestamps are modelled as rationals.
* Opaque JSON payloads (the prompt graph, result blobs) are modelled as strings.
* The in-process and Redis persistence backends run the very same list code in
  the source (they differ only in where the serialized list is stored), so one
  list model covers both; the MySQL backend is modelled separately where its
  SQL differs.
* Outbound HTTP calls are abstracted as oracle functions passed in as
  arguments: a post result is a pair of an optional body and a status code,
  where the body is modelled as an optional optional prompt id (outer none =
  the response was not a JSON object, inner option = presence of the
  prompt_id field).
-/

namespace Gateway

/-- app/priority_queue.py, class QueuedJob. -/
structure QueuedJob where
  gateway_job_id : String
  prompt : String
  client_id : String
  priority : Int
  created_at : ℚ
deriving DecidableEq

/-- The Python sort key lambda x: (-priority, created_at), compared as
Python compares tuples, i.e. lexicographically. -/
def jobKey (j : QueuedJob) : Int ×ₗ ℚ :=
  toLex (-j.priority, j.created_at)

/-- The sort order used by items.sort in pop_highest and re_queue_job. -/
def jobLe (a b : QueuedJob) : Prop :=
  jobKey a ≤ jobKey b

instance : DecidableRel jobLe := fun a b =>
  inferInstanceAs (Decidable (jobKey a ≤ jobKey b))

instance : IsTotal QueuedJob jobLe :=
  ⟨fun a b => le_total (jobKey a) (jobKey b)⟩

instance : IsTrans QueuedJob jobLe :=
  ⟨fun _ _ _ h h2 => le_trans h h2⟩

/-- app/priority_queue.py, add_job: the in-process/Redis backend appends the
new job to the stored pending list (no sort on insert). -/
def add_job (items : List QueuedJob) (j : QueuedJob) : List QueuedJob :=
  items ++ [j]

/-- app/priority_queue.py, pop_highest (in-process/Redis backend): sort the
stored list by (-priority, created_at) with the stable Python sort, pop index
0, save the remainder. Python list.sort is a stable sort, which insertionSort
also is. Returns the popped job with the saved remainder. -/
def pop_highest (items : List QueuedJob) : Option (QueuedJob × List QueuedJob) :=
  match List.insertionSort jobLe items with
  | [] => none
  | top :: rest => some (top, rest)

/-- app/priority_queue.py, re_queue_job (in-process/Redis backend): append the
job dict (carrying its original created_at) and re-sort the stored list. -/
def re_queue_job (items : List QueuedJob) (j : QueuedJob) : List QueuedJob :=
  List.insertionSort jobLe (items ++ [j])

/-- app/priority_queue.py, remove_job (in-process/Redis backend): remove the
first entry with the given gateway_job_id. -/
def remove_job (items : List QueuedJob) (gid : String) : List QueuedJob :=
  match items with
  | [] => []
  | it :: rest =>
    if it.gateway_job_id = gid then rest else it :: remove_job rest gid

/-- Modelled from the spec: the relational pending_queue table is declared as
pending_queue(gateway_job_id PK, prompt JSON, client_id, priority,
created_at default now); its CREATE TABLE statement is not present under
src/. An INSERT that omits the created_at column therefore stores the
current time. _mysql_add_job and _mysql_re_queue_job both insert only
(gateway_job_id, prompt, client_id, priority), so the stored row carries
created_at = now. The table is modelled as a list of rows in insertion
order. -/
def mysql_insert_row (now : ℚ) (table : List QueuedJob) (j : QueuedJob) :
    List QueuedJob :=
  table ++ [{ j with created_at := now }]

/-- app/priority_queue.py, _mysql_re_queue_job: INSERT INTO pending_queue
(gateway_job_id, prompt, client_id, priority) VALUES (...), omitting
created_at, so the row gets the table default now. -/
def mysql_re_queue_job (now : ℚ) (table : List QueuedJob) (j : QueuedJob) :
    List QueuedJob :=
  mysql_insert_row now table j

/-- app/priority_queue.py, _mysql_pop_highest: SELECT ... ORDER BY priority
DESC, created_at ASC LIMIT 1, then DELETE WHERE gateway_job_id = row id. The
selected row is modelled as the head of the stable sort by the same key
(any row minimal under the key; unique up to full-key ties), and the DELETE
removes every row carrying that gateway_job_id. -/
def mysql_pop_highest (table : List QueuedJob) :
    Option (QueuedJob × List QueuedJob) :=
  match List.insertionSort jobLe table with
  | [] => none
  | top :: _ =>
    some (top, table.filter (fun r => r.gateway_job_id ≠ top.gateway_job_id))

/-- Repeated pop_highest: the order in which the in-process/Redis backend
drains a pending set, with fuel bounding the number of pops. -/
def drain : Nat → List QueuedJob → List QueuedJob
  | 0, _ => []
  | n + 1, q =>
    match pop_highest q with
    | none => []
    | some (j, rest) => j :: drain n rest

/-- Repeated _mysql_pop_highest: the order in which the MySQL backend drains
the pending_queue table. -/
def mysql_drain : Nat → List QueuedJob → List QueuedJob
  | 0, _ => []
  | n + 1, q =>
    match mysql_pop_highest q with
    | none => []
    | some (j, rest) => j :: mysql_drain n rest

/-- app/task_history.py: one row of the task_history table / one dict of the
in-process list. Timestamps are rationals, result_json and error_message are
optional strings. -/
structure TaskRecord where
  task_id : String
  prompt_id : Option String
  worker_id : Option String
  priority : Int
  status : String
  progress : Int
  error_message : Option String
  submitted_at : ℚ
  started_at : Option ℚ
  completed_at : Option ℚ
  result_json : Option String
deriving DecidableEq

/-- The Python update loops walk the list and mutate the first dict whose
task_id matches, then break; this helper is that loop. -/
def updateFirst (p : TaskRecord → Bool) (f : TaskRecord → TaskRecord) :
    List TaskRecord → List TaskRecord
  | [] => []
  | x :: xs => if p x then f x :: xs else x :: updateFirst p f xs

/-- app/task_history.py, create_task (in-process backend): append a fresh
pending record. now models datetime.now(). -/
def create_task (task_id : String) (priority : Int) (now : ℚ)
    (items : List TaskRecord) : List TaskRecord :=
  items ++ [{ task_id := task_id, prompt_id := none, worker_id := none,
              priority := priority, status := "pending", progress := 0,
              error_message := none, submitted_at := now, started_at := none,
              completed_at := none, result_json := none }]

/-- app/task_history.py, update_submitted (in-process backend): set the first
matching record to status running with prompt_id, worker_id, started_at. -/
def update_submitted (task_id prompt_id worker_id : String) (now : ℚ)
    (items : List TaskRecord) : List TaskRecord :=
  updateFirst (fun r => r.task_id = task_id)
    (fun r =>
      { r with
        status := "running"
        prompt_id := some prompt_id
        worker_id := some worker_id
        started_at := some now })
    items

/-- app/task_history.py, update_progress (in-process backend): store the given
progress value on the first matching record, verbatim. -/
def update_progress (task_id : String) (progress : Int)
    (items : List TaskRecord) : List TaskRecord :=
  updateFirst (fun r => r.task_id = task_id)
    (fun r => { r with progress := progress }) items

/-- app/task_history.py, update_completed (in-process backend). -/
def update_completed (task_id : String) (result_json : String) (now : ℚ)
    (items : List TaskRecord) : List TaskRecord :=
  updateFirst (fun r => r.task_id = task_id)
    (fun r =>
      { r with
        status := "done"
        progress := 100
        completed_at := some now
        result_json := some result_json })
    items

/-- app/task_history.py, update_failed (in-process backend). -/
def update_failed (task_id : String) (error_message : String) (now : ℚ)
    (items : List TaskRecord) : List TaskRecord :=
  updateFirst (fun r => r.task_id = task_id)
    (fun r =>
      { r with
        status := "failed"
        error_message := some error_message
        completed_at := some now })
    items

/-- app/task_history.py, get_by_task_id (in-process backend): first record
with the given task_id. -/
def get_by_task_id (task_id : String) (items : List TaskRecord) :
    Option TaskRecord :=
  items.find? (fun r => r.task_id = task_id)

/-- app/task_history.py, get_by_prompt_id (in-process backend): scan the list
in reverse, return the first record whose prompt_id matches. -/
def get_by_prompt_id (prompt_id : String) (items : List TaskRecord) :
    Option TaskRecord :=
  items.reverse.find? (fun r => r.prompt_id = some prompt_id)

/-- app/task_history.py, upsert_by_prompt_id (in-process backend): if a record
with this prompt_id exists (forward scan), set its worker_id and return its
task_id; else append a fresh running record with task_id = prompt_id. Returns
the new list and the task_id. -/
def upsert_by_prompt_id (prompt_id worker_id : String) (priority : Int)
    (now : ℚ) (items : List TaskRecord) : List TaskRecord × String :=
  match items.find? (fun r => r.prompt_id = some prompt_id) with
  | some r =>
    (updateFirst (fun x => x.prompt_id = some prompt_id)
      (fun x => { x with worker_id := some worker_id }) items,
     r.task_id)
  | none =>
    (items ++ [{ task_id := prompt_id, prompt_id := some prompt_id,
                 worker_id := some worker_id, priority := priority,
                 status := "running", progress := 0, error_message := none,
                 submitted_at := now, started_at := some now,
                 completed_at := none, result_json := none }], prompt_id)

/-- app/task_history.py, _mysql_update_status: UPDATE task_history SET status
(and optionally progress, started_at, completed_at) WHERE task_id = t. A SQL
UPDATE touches every matching row, modelled as a map over the table. -/
def mysql_update_status (task_id : String) (status : String)
    (progress : Option Int) (started_at completed_at : Option ℚ)
    (table : List TaskRecord) : List TaskRecord :=
  table.map (fun r =>
    if r.task_id = task_id then
      { r with
        status := status
        progress := progress.getD r.progress
        started_at := (started_at.map some).getD r.started_at
        completed_at := (completed_at.map some).getD r.completed_at }
    else r)

/-- app/task_history.py, _mysql_update_error: UPDATE ... SET status failed,
error_message, completed_at WHERE task_id = t. -/
def mysql_update_error (task_id : String) (error_message : String) (now : ℚ)
    (table : List TaskRecord) : List TaskRecord :=
  table.map (fun r =>
    if r.task_id = task_id then
      { r with
        status := "failed"
        error_message := some error_message
        completed_at := some now }
    else r)

/-- app/task_history.py, _mysql_update_result: UPDATE ... SET result_json,
completed_at WHERE task_id = t. -/
def mysql_update_result (task_id : String) (result_json : String) (now : ℚ)
    (table : List TaskRecord) : List TaskRecord :=
  table.map (fun r =>
    if r.task_id = task_id then
      { r with
        result_json := some result_json
        completed_at := some now }
    else r)

/-- app/task_history.py, update_submitted with use_mysql() true: a single
_mysql_update_status call setting status running and started_at (prompt_id
and worker_id are not written by the MySQL branch). -/
def mysql_update_submitted (task_id : String) (now : ℚ)
    (table : List TaskRecord) : List TaskRecord :=
  mysql_update_status task_id "running" none (some now) none table

/-- app/task_history.py, update_progress with use_mysql() true: the source
calls _mysql_update_status(task_id, progress=progress) without the required
positional status argument, so the call raises TypeError before reaching the
database; no table state is touched. Fallible behaviour is modelled with
Except. -/
def mysql_update_progress (task_id : String) (progress : Int)
    (table : List TaskRecord) : Except String (List TaskRecord) :=
  .error ("TypeError: _mysql_update_status missing required argument status"
    ++ " in update_progress(" ++ task_id ++ ", " ++ toString progress ++ ")")

/-- app/task_history.py, update_completed with use_mysql() true: result write
followed by a status write. -/
def mysql_update_completed (task_id : String) (result_json : String) (now : ℚ)
    (table : List TaskRecord) : List TaskRecord :=
  mysql_update_status task_id "done" (some 100) none (some now)
    (mysql_update_result task_id result_json now table)

/-- app/task_history.py, update_failed with use_mysql() true: error write
followed by a status write. -/
def mysql_update_failed (task_id : String) (error_message : String) (now : ℚ)
    (table : List TaskRecord) : List TaskRecord :=
  mysql_update_status task_id "failed" none none (some now)
    (mysql_update_error task_id error_message now table)

/-- app/store.py, in-process backend: the two mapping dicts. A Python dict
write is modelled by consing onto an association list whose lookup takes the
most recent binding. -/
def store_set (k v : String) (m : List (String × String)) :
    List (String × String) :=
  (k, v) :: m

/-- app/store.py, get_task_worker / get_gateway_job lookup. -/
def store_get (k : String) (m : List (String × String)) : Option String :=
  m.lookup k

/-- app/workers.py, class WorkerInfo. The auth credentials play no role in
the verified control flow and are carried opaquely. -/
structure WorkerInfo where
  worker_id : String
  url : String
  name : Option String
  weight : Int
  enabled : Bool
  auth_username : Option String
  auth_password : Option String
  queue_running : Nat
  queue_pending : Nat
  healthy : Bool
deriving DecidableEq

/-- The outcome of the outbound probes issued during one select_worker
evaluation, as oracle functions keyed by worker_id: fetchQ is the result of
fetch_queue followed by parse_queue_counts (none models any error or
timeout), healthCk is the result of the health_check fallback. -/
structure ProbeEnv where
  fetchQ : String → Option (Nat × Nat)
  healthCk : String → Bool

/-- app/load_balancer.py, _get_real_time_load: on a successful fetch_queue
return (running, pending, True); on failure fall back to health_check and
return (0, 0, healthy). -/
def get_real_time_load (env : ProbeEnv) (w : WorkerInfo) : Nat × Nat × Bool :=
  match env.fetchQ w.worker_id with
  | some (running, pending) => (running, pending, true)
  | none => (0, 0, env.healthCk w.worker_id)

/-- The effect of wm.update_worker_load inside select_worker: the cached
queue_running / queue_pending / healthy fields of the candidate are
overwritten with the real-time values before selection happens. -/
def probe_update (env : ProbeEnv) (w : WorkerInfo) : WorkerInfo :=
  let rt := get_real_time_load env w
  { w with queue_running := rt.1, queue_pending := rt.2.1, healthy := rt.2.2 }

/-- The registry cache after one select_worker evaluation: every enabled
worker was probed and its cache refreshed; disabled workers are untouched. -/
def cache_after_select (env : ProbeEnv) (ws : List WorkerInfo) :
    List WorkerInfo :=
  ws.map (fun w => if w.enabled then probe_update env w else w)

/-- app/load_balancer.py, _select_idle_worker sort key: idle_workers.sort
(key=lambda x: (-weight, -queue_pending)); note the second component is the
negated cached pending, i.e. more pending sorts first among equal weight. -/
def idleLe (a b : WorkerInfo) : Prop :=
  toLex (-a.weight, -(a.queue_pending : Int)) ≤
    toLex (-b.weight, -(b.queue_pending : Int))

instance : DecidableRel idleLe := fun a b =>
  inferInstanceAs (Decidable (toLex (-a.weight, -(a.queue_pending : Int)) ≤
    toLex (-b.weight, -(b.queue_pending : Int))))

instance : IsTotal WorkerInfo idleLe :=
  ⟨fun a b => le_total (toLex (-a.weight, -(a.queue_pending : Int))) _⟩

instance : IsTrans WorkerInfo idleLe :=
  ⟨fun _ _ _ h h2 => le_trans h h2⟩

/-- app/load_balancer.py, _select_by_load sort key: (running + pending,
-weight) ascending. -/
def loadLe (a b : WorkerInfo) : Prop :=
  toLex ((a.queue_running + a.queue_pending : Int), -a.weight) ≤
    toLex ((b.queue_running + b.queue_pending : Int), -b.weight)

instance : DecidableRel loadLe := fun a b =>
  inferInstanceAs
    (Decidable (toLex ((a.queue_running + a.queue_pending : Int), -a.weight) ≤
      toLex ((b.queue_running + b.queue_pending : Int), -b.weight)))

instance : IsTotal WorkerInfo loadLe :=
  ⟨fun a b =>
    le_total (toLex ((a.queue_running + a.queue_pending : Int), -a.weight)) _⟩

instance : IsTrans WorkerInfo loadLe :=
  ⟨fun _ _ _ h h2 => le_trans h h2⟩

/-- app/load_balancer.py, _select_idle_worker applied to the refreshed
records: keep the candidates whose real-time data says healthy and
running == 0, sort by (-weight, -queue_pending), take the first. -/
def select_idle_worker (ws : List WorkerInfo) : Option WorkerInfo :=
  (List.insertionSort idleLe
    (ws.filter (fun w => w.healthy && w.queue_running == 0))).head?

/-- app/load_balancer.py, _select_by_load applied to the refreshed records:
keep the healthy candidates, sort by (running + pending, -weight), take the
first. -/
def select_by_load (ws : List WorkerInfo) : Option WorkerInfo :=
  (List.insertionSort loadLe (ws.filter (fun w => w.healthy))).head?

/-- The surviving set of one select_worker evaluation: the enabled workers,
refreshed with real-time data, whose real-time healthy bit is true. -/
def surviving (env : ProbeEnv) (ws : List WorkerInfo) : List WorkerInfo :=
  ((ws.filter (fun w => w.enabled)).map (probe_update env)).filter
    (fun w => w.healthy)

/-- app/load_balancer.py, select_worker: probe every enabled worker, refresh
the cache, keep the healthy ones, prefer an idle one, otherwise pick by
load. Returns the chosen refreshed WorkerInfo, as the source returns the
mutated registry object. -/
def select_worker (env : ProbeEnv) (ws : List WorkerInfo) :
    Option WorkerInfo :=
  let candidates := ws.filter (fun w => w.enabled)
  if candidates.isEmpty then none
  else
    let healthy_workers := surviving env ws
    if healthy_workers.isEmpty then none
    else
      match select_idle_worker healthy_workers with
      | some w => some w
      | none => select_by_load healthy_workers

/-- The result of app/client.py post_prompt as seen by its callers: an
optional body and a status code. The body is modelled as an optional
optional prompt id: none = the response was not a JSON object (the
isinstance(data, dict) check fails), some none = an object without the
prompt_id field, some (some p) = an object carrying prompt_id p. -/
structure PostResult where
  body : Option (Option String)
  status : Nat
deriving DecidableEq

/-- The checks a caller performs on a post_prompt result: status 200, body a
dict, prompt_id present. -/
def PostResult.ok (r : PostResult) : Bool :=
  r.status == 200 &&
    match r.body with
    | some (some _) => true
    | _ => false

/-- Gateway-side state touched by a direct submission: the two mapping
relations of app/store.py and the task_history list. -/
structure SubmitState where
  taskWorker : List (String × String)
  gatewayJobs : List (String × String)
  history : List TaskRecord
deriving DecidableEq

/-- Outcome of a route handler: an HTTPException status or a normal return. -/
inductive RouteOut where
  | httpError (status : Nat)
  | ok
deriving DecidableEq

/-- app/routes/prompt.py, submit_prompt, the branch with priority absent and
a worker already selected: post to the worker; on non-200 raise
HTTPException(status); otherwise, when the body is a dict containing
prompt_id, record only store.set_task_worker(prompt_id, worker_id) and
return the body. No task_history record is written by this route. -/
def prompt_route_submit (w : WorkerInfo) (resp : PostResult)
    (s : SubmitState) : SubmitState × RouteOut :=
  if resp.status ≠ 200 then (s, .httpError resp.status)
  else
    match resp.body with
    | some (some pid) =>
      ({ s with taskWorker := store_set pid w.worker_id s.taskWorker }, .ok)
    | _ => (s, .ok)

/-- app/routes/openapi.py, submit_prompt, the branch with priority absent and
a worker already selected: as the prompt route, but additionally
upsert_by_prompt_id(prompt_id, worker_id, priority=0) records a task_history
entry (the worker-load cache bump is outside this state). -/
def openapi_route_submit (w : WorkerInfo) (resp : PostResult) (now : ℚ)
    (s : SubmitState) : SubmitState × RouteOut :=
  if resp.status ≠ 200 then (s, .httpError resp.status)
  else
    match resp.body with
    | some (some pid) =>
      ({ s with
         taskWorker := store_set pid w.worker_id s.taskWorker
         history := (upsert_by_prompt_id pid w.worker_id 0 now s.history).1 },
       .ok)
    | _ => (s, .ok)

/-- The full state the dispatcher batch loop can touch. -/
structure DispatchState where
  queue : List QueuedJob
  history : List TaskRecord
  taskWorker : List (String × String)
  gatewayJobs : List (String × String)
deriving DecidableEq

/-- Outcome of one iteration of the for-loop in _dispatch_batch. The
nameError outcome models the uncaught Python NameError raised by the
failure branch: it carries the state as left behind when the exception
propagates. -/
inductive IterOut where
  | empty
  | noWorker (s : DispatchState)
  | nameError (s : DispatchState)
  | cont (s : DispatchState)
deriving DecidableEq

/-- One iteration of the loop in app/dispatcher.py, _dispatch_batch: pop the
highest-priority job (the pop already rewrites the stored queue); if
select_worker yields nothing, break (the popped job is not re-enqueued by
this code path); post the job to the worker; on success call
update_submitted on the history and continue. If the status is not 200 or
the body is not a dict or lacks prompt_id, the code calls re_queue_job(job)
- but the module imports only pop_highest and remove_job from
app.priority_queue (line 12), so that call raises NameError before touching
anything: the popped job is lost and the already-saved remainder stays as
the queue, modelled by the nameError outcome. The batch loop never touches
the taskWorker or gatewayJobs mappings. select and post are oracles for the
network effects; now models datetime.now(). -/
def dispatch_iter (select : Option WorkerInfo)
    (post : WorkerInfo → QueuedJob → PostResult) (now : ℚ)
    (s : DispatchState) : IterOut :=
  match pop_highest s.queue with
  | none => .empty
  | some (j, rest) =>
    match select with
    | none => .noWorker { s with queue := rest }
    | some w =>
      let resp := post w j
      if resp.ok then
        match resp.body with
        | some (some pid) =>
          .cont { s with
                  queue := rest
                  history :=
                    update_submitted j.gateway_job_id pid w.worker_id now
                      s.history }
        | _ => .nameError { s with queue := rest }
      else
        .nameError { s with queue := rest }

/-- app/dispatcher.py, _dispatch_batch: up to max_batch iterations of
dispatch_iter; a batch ends early when the queue is empty or no worker is
available, and a NameError in the failure branch aborts the whole batch at
that point (run_dispatcher catches the exception one level up and only
logs it). run_dispatcher calls this with max_batch = 20 every tick. -/
def dispatch_batch (select : Option WorkerInfo)
    (post : WorkerInfo → QueuedJob → PostResult) (now : ℚ) :
    Nat → DispatchState → DispatchState
  | 0, s => s
  | n + 1, s =>
    match dispatch_iter select post now s with
    | .empty => s
    | .noWorker s2 => s2
    | .nameError s2 => s2
    | .cont s2 => dispatch_batch select post now n s2

/-- One dispatcher tick as run by run_dispatcher: a batch of at most 20. -/
def dispatch_tick (select : Option WorkerInfo)
    (post : WorkerInfo → QueuedJob → PostResult) (now : ℚ)
    (s : DispatchState) : DispatchState :=
  dispatch_batch select post now 20 s

/-- Strict version of the queue ordering key, used to reason about
uniqueness of sorted orders when the keys are pairwise distinct. -/
def jobLt (a b : QueuedJob) : Prop :=
  jobKey a < jobKey b

instance : IsAntisymm QueuedJob jobLt :=
  ⟨fun _ _ h h2 => absurd h2 (not_lt.mpr (le_of_lt h))⟩

/-- Written from the words of the spec, for comparison with the code: among
idle candidates sort by (weight descending, pending ascending). The code
instead sorts by (weight descending, pending descending). -/
def spec_idle_le (a b : WorkerInfo) : Prop :=
  toLex (-a.weight, (a.queue_pending : Int)) ≤
    toLex (-b.weight, (b.queue_pending : Int))

instance : DecidableRel spec_idle_le := fun a b =>
  inferInstanceAs (Decidable (toLex (-a.weight, (a.queue_pending : Int)) ≤
    toLex (-b.weight, (b.queue_pending : Int))))

/-- Written from the words of the spec, for comparison with the code: the
first idle candidate under (weight desc, pending asc). -/
def spec_select_idle_first (ws : List WorkerInfo) : Option WorkerInfo :=
  (List.insertionSort spec_idle_le
    (ws.filter (fun w => w.healthy && w.queue_running == 0))).head?

/-- Concrete fixtures used by witnesses and counterexamples. -/
def jobA : QueuedJob := ⟨"A", "g", "c", 0, 1⟩

def jobB : QueuedJob := ⟨"B", "g", "c", 10, 2⟩

def jobC : QueuedJob := ⟨"C", "g", "c", 10, 3⟩

def jobJ : QueuedJob := ⟨"J", "g", "c", 5, 1⟩

def wrkW : WorkerInfo :=
  ⟨"W", "http://w1", none, 1, true, none, none, 0, 0, true⟩

def wrkV1 : WorkerInfo := ⟨"v1", "u1", none, 1, true, none, none, 0, 0, true⟩

def wrkV2 : WorkerInfo := ⟨"v2", "u2", none, 1, true, none, none, 0, 0, true⟩

/-- Probe outcomes making both workers idle with equal weight but different
pending depth: v1 reports (running 0, pending 0), v2 reports (0, 5). -/
def envTie : ProbeEnv :=
  ⟨fun i => if i = "v1" then some (0, 0) else some (0, 5), fun _ => true⟩

/-- Probe outcomes where every fetch_queue fails but health_check passes. -/
def envFetchFail : ProbeEnv := ⟨fun _ => none, fun _ => true⟩

/-- Probe outcomes where fetch_queue and health_check both fail. -/
def envDead : ProbeEnv := ⟨fun _ => none, fun _ => false⟩

/-- The spec scenario workers: W1 running=0 pending=3 weight=1 and W2
running=2 pending=0 weight=5. -/
def wrkS1 : WorkerInfo := ⟨"w1", "u1", none, 1, true, none, none, 0, 0, true⟩

def wrkS2 : WorkerInfo := ⟨"w2", "u2", none, 5, true, none, none, 0, 0, true⟩

def envScenario : ProbeEnv :=
  ⟨fun i => if i = "w1" then some (0, 3) else some (2, 0), fun _ => true⟩

/-- A one-record history fixture whose only task_id is the string a. -/
def demoHist : List TaskRecord := create_task "a" 0 1 []

/-! Helper lemmas. -/

theorem pop_highest_sorted {a : QueuedJob} {t : List QueuedJob}
    (h : (a :: t).Sorted jobLe) : pop_highest (a :: t) = some (a, t) := by
  unfold pop_highest
  rw [h.insertionSort_eq]

theorem drain_sorted : ∀ (n : Nat) (l : List QueuedJob),
    l.Sorted jobLe → n = l.length → drain n l = l := by
  intro n
  induction n with
  | zero =>
    intro l _ hlen
    cases l with
    | nil => rfl
    | cons a t => simp at hlen
  | succ m ih =>
    intro l hs hlen
    cases l with
    | nil => simp at hlen
    | cons a t =>
      have ht : t.Sorted jobLe := hs.of_cons
      have hlt : m = t.length := by simpa using hlen
      unfold drain
      rw [pop_highest_sorted hs]
      simp only []
      rw [ih t ht hlt]

theorem drain_eq_insertionSort (q : List QueuedJob) :
    drain q.length q = List.insertionSort jobLe q := by
  cases hq : q.length with
  | zero =>
    have : q = [] := List.length_eq_zero.mp hq
    subst this
    rfl
  | succ m =>
    have hlen : (List.insertionSort jobLe q).length = m + 1 := by
      rw [List.length_insertionSort, hq]
    cases hs : List.insertionSort jobLe q with
    | nil => simp [hs] at hlen
    | cons a t =>
      have hsorted : (a :: t).Sorted jobLe := by
        rw [← hs]; exact List.sorted_insertionSort jobLe q
      unfold drain pop_highest
      rw [hs]
      have hmt : m = t.length := by
        rw [hs] at hlen
        simp at hlen
        omega
      simp [drain_sorted m t hsorted.of_cons hmt]

theorem sorted_lt_of_sorted_of_ne {l : List QueuedJob}
    (hs : l.Sorted jobLe) (hne : l.Pairwise fun a b => jobKey a ≠ jobKey b) :
    l.Sorted jobLt := by
  have := List.Pairwise.and hs hne
  exact this.imp fun h => lt_of_le_of_ne h.1 h.2

theorem key_ne_symm : Symmetric (fun a b : QueuedJob => jobKey a ≠ jobKey b) :=
  fun _ _ h => h.symm

theorem id_ne_symm :
    Symmetric (fun a b : QueuedJob => a.gateway_job_id ≠ b.gateway_job_id) :=
  fun _ _ h => h.symm

theorem insertionSort_eq_of_perm {l₁ l₂ : List QueuedJob}
    (hp : List.Perm l₁ l₂)
    (hne : l₁.Pairwise fun a b => jobKey a ≠ jobKey b) :
    List.insertionSort jobLe l₁ = List.insertionSort jobLe l₂ := by
  have hp1 : List.Perm (List.insertionSort jobLe l₁)
      (List.insertionSort jobLe l₂) :=
    ((List.perm_insertionSort jobLe l₁).trans hp).trans
      (List.perm_insertionSort jobLe l₂).symm
  have hne1 : (List.insertionSort jobLe l₁).Pairwise
      fun a b => jobKey a ≠ jobKey b :=
    hne.perm (List.perm_insertionSort jobLe l₁).symm (fun h => Ne.symm h)
  have hne2 : (List.insertionSort jobLe l₂).Pairwise
      fun a b => jobKey a ≠ jobKey b :=
    hne1.perm hp1 (fun h => Ne.symm h)
  exact List.eq_of_perm_of_sorted hp1
    (sorted_lt_of_sorted_of_ne (List.sorted_insertionSort jobLe l₁) hne1)
    (sorted_lt_of_sorted_of_ne (List.sorted_insertionSort jobLe l₂) hne2)

theorem mysql_drain_eq : ∀ (n : Nat) (q : List QueuedJob),
    (q.Pairwise fun a b => a.gateway_job_id ≠ b.gateway_job_id) →
    (q.Pairwise fun a b => jobKey a ≠ jobKey b) →
    n = q.length →
    mysql_drain n q = List.insertionSort jobLe q := by
  intro n
  induction n with
  | zero =>
    intro q _ _ hlen
    have : q = [] := List.length_eq_zero.mp hlen.symm
    subst this
    rfl
  | succ m ih =>
    intro q hids hkeys hlen
    have hslen : (List.insertionSort jobLe q).length = m + 1 := by
      rw [List.length_insertionSort]; omega
    cases hs : List.insertionSort jobLe q with
    | nil => rw [hs] at hslen; simp at hslen
    | cons j t =>
      have hperm : List.Perm q (j :: t) := by
        rw [← hs]; exact (List.perm_insertionSort jobLe q).symm
      have hids_s : (j :: t).Pairwise
          fun a b => a.gateway_job_id ≠ b.gateway_job_id :=
        hids.perm hperm (fun h => Ne.symm h)
      have hjt : ∀ x ∈ t, x.gateway_job_id ≠ j.gateway_job_id := by
        intro x hx
        exact Ne.symm ((List.pairwise_cons.mp hids_s).1 x hx)
      have hfilter_perm : List.Perm
          (q.filter fun r => r.gateway_job_id ≠ j.gateway_job_id) t := by
        have h1 : List.Perm
            (q.filter fun r => r.gateway_job_id ≠ j.gateway_job_id)
            ((j :: t).filter fun r =>
              r.gateway_job_id ≠ j.gateway_job_id) :=
          hperm.filter _
        have h2 : ((j :: t).filter fun r =>
            r.gateway_job_id ≠ j.gateway_job_id) = t := by
          rw [List.filter_cons]
          simp only [ne_eq, not_true_eq_false, decide_False, if_false]
          exact List.filter_eq_self.mpr fun x hx => by
            simpa using hjt x hx
        rwa [h2] at h1
      have hsub : (q.filter fun r =>
          r.gateway_job_id ≠ j.gateway_job_id).Sublist q :=
        List.filter_sublist q
      have hf_ids := hids.sublist hsub
      have hf_keys := hkeys.sublist hsub
      have hm : m = (q.filter fun r =>
          r.gateway_job_id ≠ j.gateway_job_id).length := by
        have := hfilter_perm.length_eq
        have hlen2 : t.length + 1 = m + 1 := by
          rw [hs] at hslen; simpa using hslen
        omega
      have hsorted_t : t.Sorted jobLe := by
        have : (j :: t).Sorted jobLe := by
          rw [← hs]; exact List.sorted_insertionSort jobLe q
        exact this.of_cons
      unfold mysql_drain mysql_pop_highest
      rw [hs]
      simp only []
      rw [ih _ hf_ids hf_keys hm,
        insertionSort_eq_of_perm hfilter_perm hf_keys,
        hsorted_t.insertionSort_eq]

theorem updateFirst_no_match {p : TaskRecord → Bool} {f : TaskRecord → TaskRecord} :
    ∀ {items : List TaskRecord}, (∀ x ∈ items, p x = false) →
      updateFirst p f items = items := by
  intro items
  induction items with
  | nil => intro _; rfl
  | cons x xs ih =>
    intro h
    unfold updateFirst
    rw [h x (List.mem_cons_self x xs)]
    simp only [Bool.false_eq_true, if_false]
    rw [ih fun y hy => h y (List.mem_cons_of_mem x hy)]

theorem map_if_no_match {t : String} {g : TaskRecord → TaskRecord} :
    ∀ {items : List TaskRecord}, (∀ x ∈ items, x.task_id ≠ t) →
      items.map (fun r => if r.task_id = t then g r else r) = items := by
  intro items
  induction items with
  | nil => intro _; rfl
  | cons x xs ih =>
    intro h
    simp only [List.map_cons]
    rw [if_neg (h x (List.mem_cons_self x xs)),
      ih fun y hy => h y (List.mem_cons_of_mem x hy)]

theorem get_by_task_id_updateFirst {t : String}
    (f : TaskRecord → TaskRecord) (hf : ∀ x, (f x).task_id = x.task_id) :
    ∀ {items : List TaskRecord} {r : TaskRecord},
      get_by_task_id t items = some r →
      get_by_task_id t (updateFirst (fun x => x.task_id = t) f items) =
        some (f r) := by
  intro items
  induction items with
  | nil => intro r h; simp [get_by_task_id] at h
  | cons x xs ih =>
    intro r h
    by_cases hx : x.task_id = t
    · have hr : r = x := by
        unfold get_by_task_id at h
        rw [List.find?_cons_of_pos _ (by simpa using hx)] at h
        exact (Option.some_inj.mp h).symm
      subst hr
      unfold updateFirst
      rw [if_pos (by simpa using hx)]
      unfold get_by_task_id
      rw [List.find?_cons_of_pos _ (by simp [hf r, hx])]
    · have hrec : get_by_task_id t xs = some r := by
        unfold get_by_task_id at h
        rw [List.find?_cons_of_neg _ (by simpa using hx)] at h
        exact h
      unfold updateFirst
      rw [if_neg (by simpa using hx)]
      unfold get_by_task_id
      rw [List.find?_cons_of_neg _ (by simpa using hx)]
      exact ih hrec

theorem dispatch_batch_empty (sel : Option WorkerInfo)
    (post : WorkerInfo → QueuedJob → PostResult) (now : ℚ) :
    ∀ (n : Nat) (s : DispatchState), s.queue = [] →
      dispatch_batch sel post now n s = s := by
  intro n
  cases n with
  | zero => intro s _; rfl
  | succ m =>
    intro s hq
    unfold dispatch_batch dispatch_iter
    rw [hq]
    rfl

theorem dispatch_iter_fail_drops (s : DispatchState) (J : QueuedJob)
    (rest : List QueuedJob) (w : WorkerInfo)
    (post : WorkerInfo → QueuedJob → PostResult) (now : ℚ)
    (hpop : pop_highest s.queue = some (J, rest))
    (hfail : (post w J).ok = false) :
    dispatch_iter (some w) post now s = .nameError { s with queue := rest } := by
  unfold dispatch_iter
  rw [hpop]
  simp only [hfail, Bool.false_eq_true, if_false]

theorem dispatch_batch_fail_aborts (s : DispatchState) (J : QueuedJob)
    (rest : List QueuedJob) (w : WorkerInfo)
    (post : WorkerInfo → QueuedJob → PostResult) (now : ℚ)
    (hpop : pop_highest s.queue = some (J, rest))
    (hfail : (post w J).ok = false) :
    ∀ n, dispatch_batch (some w) post now (n + 1) s =
      { s with queue := rest } := by
  intro n
  unfold dispatch_batch
  rw [dispatch_iter_fail_drops s J rest w post now hpop hfail]

theorem pop_not_mem_rest {q : List QueuedJob} {J : QueuedJob}
    {rest : List QueuedJob} (hpop : pop_highest q = some (J, rest))
    (hids : q.Pairwise fun a b => a.gateway_job_id ≠ b.gateway_job_id) :
    J ∉ rest := by
  unfold pop_highest at hpop
  cases hs : List.insertionSort jobLe q with
  | nil => rw [hs] at hpop; exact absurd hpop (by simp)
  | cons a t =>
    rw [hs] at hpop
    have hpq : (a, t) = (J, rest) := Option.some_inj.mp hpop
    have hJ : J = a := (congrArg Prod.fst hpq).symm
    have hrest : rest = t := (congrArg Prod.snd hpq).symm
    rw [hJ, hrest]
    have hperm : List.Perm q (a :: t) := by
      rw [← hs]
      exact (List.perm_insertionSort jobLe q).symm
    have hpair : (a :: t).Pairwise
        fun x y => x.gateway_job_id ≠ y.gateway_job_id :=
      hids.perm hperm (fun h => Ne.symm h)
    intro hmem
    exact (List.pairwise_cons.mp hpair).1 a hmem rfl

theorem surviving_healthy {env : ProbeEnv} {ws : List WorkerInfo}
    {w : WorkerInfo} (h : w ∈ surviving env ws) : w.healthy = true := by
  unfold surviving at h
  exact by simpa using (List.mem_filter.mp h).2

theorem select_worker_mem_surviving {env : ProbeEnv} {ws : List WorkerInfo}
    {w2 : WorkerInfo} (h : select_worker env ws = some w2) :
    w2 ∈ surviving env ws := by
  unfold select_worker at h
  by_cases hc : (ws.filter fun w => w.enabled).isEmpty
  · rw [if_pos hc] at h; exact absurd h (by simp)
  · rw [if_neg hc] at h
    by_cases hh : (surviving env ws).isEmpty
    · rw [if_pos hh] at h; exact absurd h (by simp)
    · rw [if_neg hh] at h
      cases hsel : select_idle_worker (surviving env ws) with
      | some w =>
        rw [hsel] at h
        have hw : w2 = w := by simpa using h.symm
        subst hw
        unfold select_idle_worker at hsel
        have hmem : w2 ∈ List.insertionSort idleLe
            ((surviving env ws).filter fun w =>
              w.healthy && w.queue_running == 0) := by
          exact List.mem_of_mem_head? hsel
        rw [List.mem_insertionSort] at hmem
        exact (List.mem_filter.mp hmem).1
      | none =>
        rw [hsel] at h
        unfold select_by_load at h
        have hmem : w2 ∈ List.insertionSort loadLe
            ((surviving env ws).filter fun w => w.healthy) :=
          List.mem_of_mem_head? h
        rw [List.mem_insertionSort] at hmem
        exact (List.mem_filter.mp hmem).1

/-! Claim theorems. -/

/-- C5: for every sequence of enqueues followed by pops with no interleaved
removes, pop_highest returns jobs in the order given by sorting the pending
set by (-priority, created_at) - maximum priority first, ties by minimum
created_at - and this holds both for the in-process/Redis backend and, when
the table satisfies the primary-key constraint and has no full-key ties, for
the MySQL backend. -/
theorem claim_C5_pop_order (q : List QueuedJob) :
    drain q.length q = List.insertionSort jobLe q ∧
    ((q.Pairwise fun a b => a.gateway_job_id ≠ b.gateway_job_id) →
      (q.Pairwise fun a b => jobKey a ≠ jobKey b) →
      mysql_drain q.length q = List.insertionSort jobLe q) :=
  ⟨drain_eq_insertionSort q,
   fun h1 h2 => mysql_drain_eq q.length q h1 h2 rfl⟩

/-- Witness for C5 at the concrete scenario of the spec: A priority 0 at
t=1, B priority 10 at t=2, C priority 10 at t=3 pop in the order B, C, A in
both backends. -/
theorem claim_C5_pop_order_witness :
    ([jobA, jobB, jobC].Pairwise fun a b =>
      a.gateway_job_id ≠ b.gateway_job_id) ∧
    ([jobA, jobB, jobC].Pairwise fun a b => jobKey a ≠ jobKey b) ∧
    List.insertionSort jobLe [jobA, jobB, jobC] = [jobB, jobC, jobA] ∧
    drain 3 [jobA, jobB, jobC] =
      List.insertionSort jobLe [jobA, jobB, jobC] ∧
    mysql_drain 3 [jobA, jobB, jobC] =
      List.insertionSort jobLe [jobA, jobB, jobC] :=
  ⟨by decide, by decide, by decide,
   (claim_C5_pop_order [jobA, jobB, jobC]).1,
   (claim_C5_pop_order [jobA, jobB, jobC]).2 (by decide) (by decide)⟩

/-- C1: the claim (and the spec) say a 503 from post_prompt re-enqueues the
popped job and it is retried every later tick until success. The code
cannot do that: the 503 branch of _dispatch_batch calls re_queue_job, a
name the module never imports (line 12 imports only pop_highest and
remove_job), so the branch raises NameError, run_dispatcher merely logs the
exception, and the popped job is lost. This theorem evaluates the model at
the failing input: one queued job, one enabled worker answering 503 - after
the tick the queue is empty, a subsequent pop returns nothing, the loss is
permanent across further ticks, and neither history nor mappings were
touched. -/
theorem claim_C1_job_lost_on_503 :
    dispatch_iter (some wrkW) (fun _ _ => ⟨none, 503⟩) 2
        ⟨[jobJ], [], [], []⟩ =
      .nameError ⟨[], [], [], []⟩ ∧
    dispatch_tick (some wrkW) (fun _ _ => ⟨none, 503⟩) 2
        ⟨[jobJ], [], [], []⟩ = ⟨[], [], [], []⟩ ∧
    pop_highest
        (dispatch_tick (some wrkW) (fun _ _ => ⟨none, 503⟩) 2
          ⟨[jobJ], [], [], []⟩).queue = none ∧
    dispatch_tick (some wrkW) (fun _ _ => ⟨none, 503⟩) 2
        ⟨[], [], [], []⟩ = ⟨[], [], [], []⟩ := by
  decide

/-- C2: the spec and the module docstring of app/dispatcher.py state that a
successful dispatch records both the prompt_id to worker mapping and the
gateway_job_id mapping; the batch loop actually run by run_dispatcher never
calls store.set_task_worker or store.set_gateway_job (the store import is
dead code), so after a successful dispatch both lookups return nothing.
This theorem evaluates the model at the failing input: one queued job J,
one worker, a 200 response with prompt_id P. -/
theorem claim_C2_mappings_missing :
    (dispatch_tick (some wrkW) (fun _ _ => ⟨some (some "P"), 200⟩) 2
        ⟨[jobJ], [], [], []⟩).queue = [] ∧
    store_get "P"
      (dispatch_tick (some wrkW) (fun _ _ => ⟨some (some "P"), 200⟩) 2
        ⟨[jobJ], [], [], []⟩).taskWorker = none ∧
    store_get "J"
      (dispatch_tick (some wrkW) (fun _ _ => ⟨some (some "P"), 200⟩) 2
        ⟨[jobJ], [], [], []⟩).gatewayJobs = none := by
  decide

/-- C3 counterexample: a worker answering a non-503 failure status (500)
does get its job dropped - but not the way the claim says: the history
record is never marked failed and carries no error message (it still says
pending), because the failure branch raises NameError at the un-imported
re_queue_job before any history write and the exception ends the batch.
This contradicts the claim, whose first conjunct demands a failed record
with an error message, at the concrete input below. -/
theorem claim_C3_counterexample :
    (dispatch_tick (some wrkW) (fun _ _ => ⟨none, 500⟩) 2
        ⟨[jobJ], create_task "J" 5 1 [], [], []⟩).queue = [] ∧
    (get_by_task_id "J"
        (dispatch_tick (some wrkW) (fun _ _ => ⟨none, 500⟩) 2
          ⟨[jobJ], create_task "J" 5 1 [], [], []⟩).history).map
        (fun r => r.status) = some "pending" ∧
    (get_by_task_id "J"
        (dispatch_tick (some wrkW) (fun _ _ => ⟨none, 500⟩) 2
          ⟨[jobJ], create_task "J" 5 1 [], [], []⟩).history).map
        (fun r => r.error_message) = some none := by
  decide

/-- C3 amended: for every job J popped by the batch loop, a failed
submission - any non-200 status, a non-object body, or a body without
prompt_id - drops J and a later pop never returns it (assuming the
primary-key property that gateway_job_ids in the queue are distinct), but
J's history record is NOT marked failed: the failure branch raises
NameError at the un-imported re_queue_job before any history write, the
batch aborts there with the history and mappings untouched, and the saved
queue is the remainder without J. -/
theorem claim_C3_amended (s : DispatchState) (J : QueuedJob)
    (rest : List QueuedJob) (w : WorkerInfo)
    (post : WorkerInfo → QueuedJob → PostResult) (now : ℚ)
    (hpop : pop_highest s.queue = some (J, rest))
    (hfail : (post w J).ok = false) :
    dispatch_iter (some w) post now s = .nameError { s with queue := rest } ∧
    (∀ n, dispatch_batch (some w) post now (n + 1) s =
      { s with queue := rest }) ∧
    ((s.queue.Pairwise fun a b => a.gateway_job_id ≠ b.gateway_job_id) →
      J ∉ rest) :=
  ⟨dispatch_iter_fail_drops s J rest w post now hpop hfail,
   dispatch_batch_fail_aborts s J rest w post now hpop hfail,
   fun hids => pop_not_mem_rest hpop hids⟩

/-- Witness for C3 amended at a concrete input: status 500 on a singleton
queue. -/
theorem claim_C3_amended_witness :
    pop_highest ((⟨[jobJ], [], [], []⟩ : DispatchState)).queue =
      some (jobJ, []) ∧
    ((fun _ _ => (⟨none, 500⟩ : PostResult)) wrkW jobJ).ok = false ∧
    ([jobJ].Pairwise fun a b => a.gateway_job_id ≠ b.gateway_job_id) ∧
    (dispatch_iter (some wrkW) (fun _ _ => ⟨none, 500⟩) 2
        ⟨[jobJ], [], [], []⟩ =
      .nameError { (⟨[jobJ], [], [], []⟩ : DispatchState) with
                   queue := ([] : List QueuedJob) } ∧
      dispatch_batch (some wrkW) (fun _ _ => ⟨none, 500⟩) 2 20
          ⟨[jobJ], [], [], []⟩ =
        { (⟨[jobJ], [], [], []⟩ : DispatchState) with
          queue := ([] : List QueuedJob) } ∧
      jobJ ∉ ([] : List QueuedJob)) :=
  ⟨by decide, by decide, by decide,
   match claim_C3_amended ⟨[jobJ], [], [], []⟩ jobJ [] wrkW
     (fun _ _ => ⟨none, 500⟩) 2 (by decide) (by decide) with
   | ⟨h1, h2, h3⟩ => ⟨h1, h2 19, h3 (by decide)⟩⟩

/-- C4 counterexample: update_progress performs no clamping (150 is stored
although 150 is outside [0,100]), is not monotone (a call with 30 while the
stored progress is 50 overwrites it although 30 is at most 50), and
terminal states do not absorb (after update_failed a further update_progress
still changes the progress field, which is neither result_blob nor
error_message). This contradicts the claim at the concrete inputs below. -/
theorem claim_C4_counterexample :
    (get_by_task_id "a" (update_progress "a" 150 demoHist)).map
        (fun r => r.progress) = some 150 ∧
    ¬((150 : Int) ≤ 100) ∧
    (get_by_task_id "a"
        (update_progress "a" 30 (update_progress "a" 50 demoHist))).map
        (fun r => r.progress) = some 30 ∧
    (30 : Int) ≤ 50 ∧
    (get_by_task_id "a"
        (update_failed "a" "boom" 2 demoHist)).map (fun r => r.status) =
      some "failed" ∧
    (get_by_task_id "a"
        (update_progress "a" 70 (update_failed "a" "boom" 2 demoHist))).map
        (fun r => r.progress) = some 70 := by
  decide

/-- C4 amended: in the in-process backend, update_progress stores its
argument verbatim on the first matching record (no clamping to [0,100], no
monotonicity check - a value at most the current progress still overwrites
it), and mark_failed is not absorbing: a subsequent update_progress still
rewrites the progress field of the failed record. -/
theorem claim_C4_amended (items : List TaskRecord) (t e : String)
    (v : Int) (now : ℚ) (r : TaskRecord)
    (h : get_by_task_id t items = some r) :
    get_by_task_id t (update_progress t v items) =
      some { r with progress := v } ∧
    get_by_task_id t (update_failed t e now items) =
      some { r with
             status := "failed"
             error_message := some e
             completed_at := some now } ∧
    get_by_task_id t (update_progress t v (update_failed t e now items)) =
      some { r with
             status := "failed"
             error_message := some e
             completed_at := some now
             progress := v } := by
  refine ⟨?_, ?_, ?_⟩
  · exact get_by_task_id_updateFirst (fun x => { x with progress := v })
      (fun x => rfl) h
  · exact get_by_task_id_updateFirst
      (fun x =>
        { x with
          status := "failed"
          error_message := some e
          completed_at := some now }) (fun x => rfl) h
  · have h2 := get_by_task_id_updateFirst
      (fun x =>
        { x with
          status := "failed"
          error_message := some e
          completed_at := some now }) (fun x => rfl) h
    exact get_by_task_id_updateFirst (fun x => { x with progress := v })
      (fun x => rfl) h2

/-- Witness for C4 amended at a concrete input. -/
theorem claim_C4_amended_witness :
    get_by_task_id "a" demoHist =
      some ⟨"a", none, none, 0, "pending", 0, none, 1, none, none, none⟩ ∧
    (get_by_task_id "a" (update_progress "a" 150 demoHist) =
      some ⟨"a", none, none, 0, "pending", 150, none, 1, none, none,
        none⟩ ∧
    get_by_task_id "a" (update_failed "a" "boom" 2 demoHist) =
      some ⟨"a", none, none, 0, "failed", 0, some "boom", 1, none, some 2,
        none⟩ ∧
    get_by_task_id "a"
        (update_progress "a" 150 (update_failed "a" "boom" 2 demoHist)) =
      some ⟨"a", none, none, 0, "failed", 150, some "boom", 1, none,
        some 2, none⟩) :=
  ⟨by decide,
   claim_C4_amended demoHist "a" "boom" 150 2
     ⟨"a", none, none, 0, "pending", 0, none, 1, none, none, none⟩
     (by decide)⟩

/-- C9 counterexample: in the MySQL backend, re_enqueue inserts the row
without its created_at column, so the stored created_at is the insertion
time (here 5), not the original value carried by the popped job (1). This
contradicts the claim that re_enqueue preserves created_at in every
backend. -/
theorem claim_C9_counterexample :
    jobJ.created_at = 1 ∧
    (mysql_re_queue_job 5 [] jobJ).map (fun r => r.created_at) = [5] ∧
    (5 : ℚ) ≠ 1 := by
  decide

/-- C9 amended: in the in-process/Redis backend re_enqueue re-inserts the
popped job unchanged - its original created_at included - so it keeps its
position among jobs of equal priority; in the MySQL backend the re-insert
omits created_at and the row is stored with created_at = now, the table
default. -/
theorem claim_C9_amended (q : List QueuedJob) (j : QueuedJob) (now : ℚ) :
    j ∈ re_queue_job q j ∧
    List.Perm (re_queue_job q j) (q ++ [j]) ∧
    mysql_re_queue_job now q j = q ++ [{ j with created_at := now }] := by
  refine ⟨?_, List.perm_insertionSort jobLe (q ++ [j]), rfl⟩
  unfold re_queue_job
  rw [List.mem_insertionSort]
  simp

/-- C10: the claim says every history mutation with an unknown task_id is a
silent no-op. That is true of update_submitted, update_completed and
update_failed in both backends and of update_progress in the in-process
backend; but in the MySQL backend update_progress calls
_mysql_update_status without its required status argument, so it raises
TypeError on every call instead of being a silent no-op - the code
contradicts its own function signature and docstring. -/
theorem claim_C10_no_op_on_missing (items : List TaskRecord)
    (t p w res e : String) (v : Int) (now : ℚ)
    (hmiss : ∀ r ∈ items, r.task_id ≠ t) :
    update_submitted t p w now items = items ∧
    update_progress t v items = items ∧
    update_completed t res now items = items ∧
    update_failed t e now items = items ∧
    mysql_update_submitted t now items = items ∧
    mysql_update_completed t res now items = items ∧
    mysql_update_failed t e now items = items ∧
    ∃ msg, mysql_update_progress t v items = .error msg := by
  have hbool : ∀ x ∈ items, (decide (x.task_id = t)) = false := by
    intro x hx
    exact decide_eq_false (hmiss x hx)
  refine ⟨updateFirst_no_match hbool, updateFirst_no_match hbool,
    updateFirst_no_match hbool, updateFirst_no_match hbool, ?_, ?_, ?_,
    ⟨_, rfl⟩⟩
  · exact map_if_no_match hmiss
  · unfold mysql_update_completed mysql_update_result mysql_update_status
    rw [map_if_no_match hmiss, map_if_no_match hmiss]
  · unfold mysql_update_failed mysql_update_error mysql_update_status
    rw [map_if_no_match hmiss, map_if_no_match hmiss]

/-- Witness for C10 at a concrete input: a history holding only task a,
mutated with the unknown task_id b. -/
theorem claim_C10_no_op_on_missing_witness :
    (∀ r ∈ demoHist, r.task_id ≠ "b") ∧
    (update_submitted "b" "p" "w" 2 demoHist = demoHist ∧
      update_progress "b" 50 demoHist = demoHist ∧
      update_completed "b" "res" 2 demoHist = demoHist ∧
      update_failed "b" "err" 2 demoHist = demoHist ∧
      mysql_update_submitted "b" 2 demoHist = demoHist ∧
      mysql_update_completed "b" "res" 2 demoHist = demoHist ∧
      mysql_update_failed "b" "err" 2 demoHist = demoHist ∧
      ∃ msg, mysql_update_progress "b" 50 demoHist = .error msg) :=
  ⟨by decide,
   claim_C10_no_op_on_missing demoHist "b" "p" "w" "res" "err" 50 2
     (by decide)⟩

/-- C6 counterexample: with two surviving idle candidates of equal weight,
v1 reporting pending 0 and v2 reporting pending 5, the code returns v2 -
idle_workers.sort uses the key (-weight, -queue_pending), i.e. pending
descending - whereas the first under the claimed sort key (weight
descending, pending ascending) is v1. -/
theorem claim_C6_counterexample :
    (select_worker envTie [wrkV1, wrkV2]).map (fun w => w.worker_id) =
      some "v2" ∧
    (spec_select_idle_first (surviving envTie [wrkV1, wrkV2])).map
        (fun w => w.worker_id) = some "v1" ∧
    wrkV1.weight = wrkV2.weight := by
  decide

/-- C6 amended: whenever at least one surviving (probe-succeeded, healthy)
candidate reports running == 0, select_worker returns such an idle worker,
and the returned worker is least under the sort key actually used by the
code, (weight descending, pending descending), among all surviving idle
candidates; in particular with W1 (running=0, pending=3, weight=1) and W2
(running=2, pending=0, weight=5) it returns W1. -/
theorem claim_C6_amended (env : ProbeEnv) (ws : List WorkerInfo)
    (hidle : ∃ w ∈ surviving env ws, w.queue_running = 0) :
    ∃ w2, select_worker env ws = some w2 ∧ w2 ∈ surviving env ws ∧
      w2.queue_running = 0 ∧
      ∀ u ∈ surviving env ws, u.queue_running = 0 → idleLe w2 u := by
  obtain ⟨w0, hw0s, hw0r⟩ := hidle
  have hw0h : w0.healthy = true := surviving_healthy hw0s
  have hw0i : w0 ∈ (surviving env ws).filter
      (fun w => w.healthy && w.queue_running == 0) :=
    List.mem_filter.mpr ⟨hw0s, by simp [hw0h, hw0r]⟩
  cases hs : List.insertionSort idleLe
      ((surviving env ws).filter
        (fun w => w.healthy && w.queue_running == 0)) with
  | nil =>
    exact absurd ((List.mem_insertionSort idleLe).mpr hw0i) (by rw [hs]; simp)
  | cons w2 rest =>
    have hsel : select_idle_worker (surviving env ws) = some w2 := by
      unfold select_idle_worker
      rw [hs]
      rfl
    have hw2i : w2 ∈ (surviving env ws).filter
        (fun w => w.healthy && w.queue_running == 0) := by
      rw [← List.mem_insertionSort idleLe, hs]
      exact List.mem_cons_self w2 rest
    have hw2s : w2 ∈ surviving env ws := (List.mem_filter.mp hw2i).1
    have hw2r : w2.queue_running = 0 := by
      have h := (List.mem_filter.mp hw2i).2
      simp at h
      exact h.2
    have hcand : (ws.filter fun w => w.enabled) ≠ [] := by
      intro hnil
      unfold surviving at hw0s
      rw [hnil] at hw0s
      simp at hw0s
    have hsurv : surviving env ws ≠ [] := List.ne_nil_of_mem hw0s
    have hmain : select_worker env ws = some w2 := by
      show (if (ws.filter fun w => w.enabled).isEmpty then none
        else if (surviving env ws).isEmpty then none
        else
          match select_idle_worker (surviving env ws) with
          | some w => some w
          | none => select_by_load (surviving env ws)) = some w2
      rw [if_neg (by simpa [List.isEmpty_iff] using hcand),
        if_neg (by simpa [List.isEmpty_iff] using hsurv), hsel]
    refine ⟨w2, hmain, hw2s, hw2r, ?_⟩
    intro u hus hur
    have hui : u ∈ (surviving env ws).filter
        (fun w => w.healthy && w.queue_running == 0) :=
      List.mem_filter.mpr ⟨hus, by simp [surviving_healthy hus, hur]⟩
    have husort : u ∈ w2 :: rest := by
      rw [← hs]
      exact (List.mem_insertionSort idleLe).mpr hui
    cases List.mem_cons.mp husort with
    | inl he =>
      subst he
      exact le_refl _
    | inr hr =>
      have hsorted : (w2 :: rest).Sorted idleLe := by
        rw [← hs]
        exact List.sorted_insertionSort idleLe _
      exact List.rel_of_sorted_cons hsorted u hr

/-- Witness for C6 at the concrete scenario of the spec: W1 running=0
pending=3 weight=1 and W2 running=2 pending=0 weight=5; the selector
returns W1, the only idle candidate. -/
theorem claim_C6_amended_witness :
    (∃ w ∈ surviving envScenario [wrkS1, wrkS2], w.queue_running = 0) ∧
    (∃ w2, select_worker envScenario [wrkS1, wrkS2] = some w2 ∧
      w2 ∈ surviving envScenario [wrkS1, wrkS2] ∧ w2.queue_running = 0 ∧
      ∀ u ∈ surviving envScenario [wrkS1, wrkS2], u.queue_running = 0 →
        idleLe w2 u) ∧
    (select_worker envScenario [wrkS1, wrkS2]).map (fun w => w.worker_id) =
      some "w1" :=
  ⟨by decide, claim_C6_amended envScenario [wrkS1, wrkS2] (by decide),
   by decide⟩

/-- C7 counterexample: a worker whose fetch_queue probe fails but whose
health_check fallback succeeds is neither excluded nor marked unhealthy:
the selector still returns it (treating it as idle with running=0,
pending=0) and the refreshed cache keeps healthy = true. This contradicts
the claim at the concrete input below. -/
theorem claim_C7_counterexample :
    envFetchFail.fetchQ "v1" = none ∧
    (select_worker envFetchFail [wrkV1]).map (fun w => w.worker_id) =
      some "v1" ∧
    (cache_after_select envFetchFail [wrkV1]).map (fun w => w.healthy) =
      [true] := by
  decide

/-- C7 amended: a candidate whose fetch_queue probe fails is retried with
health_check; only when that also fails is it treated as unavailable - its
refreshed record carries healthy = false, it is excluded from the surviving
set the selector draws from (the selector only ever returns a member of
that set), and its cached healthy bit is stored as false. If health_check
succeeds the worker instead stays in the pool as (running=0, pending=0,
healthy). -/
theorem claim_C7_amended (env : ProbeEnv) (ws : List WorkerInfo)
    (w : WorkerInfo) (hmem : w ∈ ws) (hen : w.enabled = true)
    (hfetch : env.fetchQ w.worker_id = none)
    (hhc : env.healthCk w.worker_id = false) :
    probe_update env w =
      { w with queue_running := 0, queue_pending := 0, healthy := false } ∧
    probe_update env w ∉ surviving env ws ∧
    (∀ w2, select_worker env ws = some w2 →
      w2 ∈ surviving env ws ∧ w2.healthy = true) ∧
    { w with queue_running := 0, queue_pending := 0, healthy := false } ∈
      cache_after_select env ws := by
  have hpu : probe_update env w =
      { w with queue_running := 0, queue_pending := 0, healthy := false } := by
    unfold probe_update get_real_time_load
    rw [hfetch, hhc]
  refine ⟨hpu, ?_, ?_, ?_⟩
  · intro hmem2
    have hh := surviving_healthy hmem2
    rw [hpu] at hh
    simp at hh
  · intro w2 h
    exact ⟨select_worker_mem_surviving h,
      surviving_healthy (select_worker_mem_surviving h)⟩
  · have hfw : (fun x => if x.enabled then probe_update env x else x) w =
        { w with queue_running := 0, queue_pending := 0, healthy := false } := by
      show (if w.enabled then probe_update env w else w) = _
      rw [if_pos hen]
      exact hpu
    unfold cache_after_select
    rw [← hfw]
    exact List.mem_map_of_mem _ hmem

/-- Witness for C7 at a concrete input: one enabled worker whose
fetch_queue and health_check both fail. -/
theorem claim_C7_amended_witness :
    (wrkV1 ∈ [wrkV1] ∧ wrkV1.enabled = true ∧
      envDead.fetchQ wrkV1.worker_id = none ∧
      envDead.healthCk wrkV1.worker_id = false) ∧
    (probe_update envDead wrkV1 =
      { wrkV1 with queue_running := 0, queue_pending := 0, healthy := false } ∧
    probe_update envDead wrkV1 ∉ surviving envDead [wrkV1] ∧
    (∀ w2, select_worker envDead [wrkV1] = some w2 →
      w2 ∈ surviving envDead [wrkV1] ∧ w2.healthy = true) ∧
    { wrkV1 with queue_running := 0, queue_pending := 0, healthy := false } ∈
      cache_after_select envDead [wrkV1]) :=
  ⟨⟨by decide, by decide, rfl, rfl⟩,
   claim_C7_amended envDead [wrkV1] wrkV1 (by decide) (by decide) rfl rfl⟩

/-- C8 counterexample: the plain /prompt route records the prompt_id to
worker mapping but writes no task_history record at all: after a direct
submission answered 200 with prompt_id P1, get_by_task_id P1 on the
history is none while the claim demands a record with status running. The
history-writing behaviour lives only in the /openapi/prompt route. -/
theorem claim_C8_counterexample :
    store_get "P1"
        ((prompt_route_submit wrkW ⟨some (some "P1"), 200⟩
          ⟨[], [], []⟩).1).taskWorker = some "W" ∧
    get_by_task_id "P1"
        ((prompt_route_submit wrkW ⟨some (some "P1"), 200⟩
          ⟨[], [], []⟩).1).history = none ∧
    (prompt_route_submit wrkW ⟨some (some "P1"), 200⟩ ⟨[], [], []⟩).2 =
      .ok := by
  decide

/-- C8 amended: for a direct (no-priority) submission answered 200 with a
body containing prompt_id P, both routes record get_task_worker(P) = the
chosen worker id; the /openapi/prompt route additionally creates a history
record with task_id = P and status running (assuming P is fresh), while
the plain /prompt route leaves the history untouched. -/
theorem claim_C8_amended (w : WorkerInfo) (pid : String) (s : SubmitState)
    (now : ℚ)
    (hfresh : ∀ r ∈ s.history, r.prompt_id ≠ some pid ∧ r.task_id ≠ pid) :
    (store_get pid
        ((prompt_route_submit w ⟨some (some pid), 200⟩ s).1).taskWorker =
      some w.worker_id ∧
      ((prompt_route_submit w ⟨some (some pid), 200⟩ s).1).history =
        s.history) ∧
    (store_get pid
        ((openapi_route_submit w ⟨some (some pid), 200⟩ now
          s).1).taskWorker = some w.worker_id ∧
      get_by_task_id pid
          ((openapi_route_submit w ⟨some (some pid), 200⟩ now
            s).1).history =
        some ⟨pid, some pid, some w.worker_id, 0, "running", 0, none, now,
          some now, none, none⟩) := by
  have h1 : prompt_route_submit w ⟨some (some pid), 200⟩ s =
      ({ s with taskWorker := store_set pid w.worker_id s.taskWorker },
        .ok) := by
    unfold prompt_route_submit
    simp
  have hfind : s.history.find? (fun r => r.prompt_id = some pid) = none :=
    List.find?_eq_none.mpr fun x hx => by simp [(hfresh x hx).1]
  have h2 : openapi_route_submit w ⟨some (some pid), 200⟩ now s =
      ({ s with
         taskWorker := store_set pid w.worker_id s.taskWorker
         history := s.history ++
           [⟨pid, some pid, some w.worker_id, 0, "running", 0, none, now,
             some now, none, none⟩] }, .ok) := by
    unfold openapi_route_submit upsert_by_prompt_id
    simp [hfind]
  refine ⟨⟨?_, ?_⟩, ?_, ?_⟩
  · rw [h1]
    simp [store_get, store_set]
  · rw [h1]
  · rw [h2]
    simp [store_get, store_set]
  · rw [h2]
    unfold get_by_task_id
    simp only [List.find?_append]
    have hnone : s.history.find? (fun r => r.task_id = pid) = none :=
      List.find?_eq_none.mpr fun x hx => by simp [(hfresh x hx).2]
    rw [hnone]
    simp

/-- Witness for C8 at the concrete scenario of the spec: worker W at
http://w1, response 200 with prompt_id P1, empty prior state. -/
theorem claim_C8_amended_witness :
    (∀ r ∈ ([] : List TaskRecord), r.prompt_id ≠ some "P1" ∧
      r.task_id ≠ "P1") ∧
    ((store_get "P1"
        ((prompt_route_submit wrkW ⟨some (some "P1"), 200⟩
          ⟨[], [], []⟩).1).taskWorker = some wrkW.worker_id ∧
      ((prompt_route_submit wrkW ⟨some (some "P1"), 200⟩
        ⟨[], [], []⟩).1).history = []) ∧
    (store_get "P1"
        ((openapi_route_submit wrkW ⟨some (some "P1"), 200⟩ 1
          ⟨[], [], []⟩).1).taskWorker = some wrkW.worker_id ∧
      get_by_task_id "P1"
          ((openapi_route_submit wrkW ⟨some (some "P1"), 200⟩ 1
            ⟨[], [], []⟩).1).history =
        some ⟨"P1", some "P1", some wrkW.worker_id, 0, "running", 0, none,
          1, some 1, none, none⟩)) :=
  ⟨by simp,
   claim_C8_amended wrkW "P1" ⟨[], [], []⟩ 1 (by simp)⟩

end Gateway
